import Mathlib

/-!
# Verification of the Rick-and-Morty style maker upload pipeline

A shallow embedding of the three source files of the repository
(`src/App.tsx`, `src/services/geminiService.ts`, `src/types.ts`) together
with proofs about the behaviours described in the design document:
image optimization, prompt construction, response extraction, error
classification, and the application controller's state transitions.

All arithmetic is modelled exactly over `Nat`/`ℚ` (the source performs its
dimension arithmetic on integer pixel counts well inside the exact range of
the host's numeric type).  Asynchronous callbacks are modelled as explicit
state-transition functions applied in the order the event loop would run
them.
-/

namespace RickMorty

/-! ## Data model (`src/types.ts`) -/

/-- `AppState` enum from `src/types.ts`. -/
inductive AppState where
  | IDLE
  | PROCESSING
  | COMPLETE
  | ERROR
deriving DecidableEq, Repr

/-- `ProcessedImage` from `src/types.ts`: a base64 payload plus MIME type. -/
structure ProcessedImage where
  base64 : String
  mimeType : String
deriving DecidableEq, Repr

/-- `GenerationResult` from `src/types.ts`. -/
structure GenerationResult where
  original : Option ProcessedImage
  generated : Option String
deriving DecidableEq, Repr

/-- `StyleStrength` from `src/services/geminiService.ts`:
`'balanced' | 'strong'`. -/
inductive StyleStrength where
  | balanced
  | strong
deriving DecidableEq, Repr

/-! ## Image Optimizer (`optimizeImage` in `src/services/geminiService.ts`)

The browser decode/canvas machinery is modelled as an environment: whether
a window/Image object exists, whether decoding the payload succeeds (and
with which pixel dimensions), and whether a 2d canvas context is
available.  The bytes produced by `canvas.toDataURL` are opaque, so the
output payload is either the untouched input string or an abstract JPEG
re-encoding tagged with its dimensions and quality factor. -/

/-- Outcome of the browser decoding the data URL: `img.onload` fires with
pixel dimensions, or `img.onerror` fires. -/
inductive DecodeOutcome where
  | success (width height : Nat)
  | failure
deriving DecidableEq, Repr

/-- The browser facilities `optimizeImage` interacts with. -/
structure OptEnv where
  browserAvailable : Bool
  decode : DecodeOutcome
  ctxAvailable : Bool
deriving DecidableEq, Repr

/-- The payload returned by the optimizer: the input base64 string
passed through unchanged, or an opaque JPEG re-encoding at the given
dimensions and quality. -/
inductive OptData where
  | passthrough (base64 : String)
  | jpegOf (width height : Nat) (quality : ℚ)
deriving DecidableEq, Repr

/-- The `{ data, mimeType }` object the optimizer resolves with. -/
structure OptOutput where
  data : OptData
  mimeType : String
deriving DecidableEq, Repr

/-- JavaScript `Math.round (a / b)` for natural `a`, positive natural `b`:
round half towards positive infinity, i.e. `⌊a/b + 1/2⌋`. -/
def jsRound (a b : Nat) : Nat := (2 * a + b) / (2 * b)

/-- `MAX_DIMENSION` constant in `optimizeImage`. -/
def MAX_DIMENSION : Nat := 1024

/-- Shallow embedding of `optimizeImage` (`src/services/geminiService.ts`).
Every control path of the source calls `resolve` (never `reject`), so the
embedding is a total function.  Paths, in source order: the non-browser
guard, `img.onerror`, the small-image early return, the missing-context
fallback, and the resize/re-encode path (`canvas.toDataURL('image/jpeg',
0.85)`). -/
def optimizeImage (env : OptEnv) (base64 : String) (mimeType : String) : OptOutput :=
  if env.browserAvailable = false then
    { data := .passthrough base64, mimeType := mimeType }
  else
    match env.decode with
    | .failure => { data := .passthrough base64, mimeType := mimeType }
    | .success width height =>
      if MAX_DIMENSION < width ∨ MAX_DIMENSION < height then
        let wh : Nat × Nat :=
          if height < width then
            (MAX_DIMENSION, jsRound (height * MAX_DIMENSION) width)
          else
            (jsRound (width * MAX_DIMENSION) height, MAX_DIMENSION)
        if env.ctxAvailable = false then
          { data := .passthrough base64, mimeType := mimeType }
        else
          { data := .jpegOf wh.1 wh.2 0.85, mimeType := "image/jpeg" }
      else
        { data := .passthrough base64, mimeType := mimeType }

/-! ## Style Prompt Builder (prompt construction and `temperature` inside
`generateRickAndMortyStyle`, `src/services/geminiService.ts`) -/

/-- The interpolated intensity label of the prompt template. -/
def intensityLabel (strength : StyleStrength) : String :=
  if strength = .strong then "MAXIMUM SCHWIFTINESS (High Stylization)"
  else "STANDARD (Balanced)"

/-- The strength-specific instruction block of the prompt template. -/
def instructionBlock (strength : StyleStrength) : String :=
  if strength = .strong then
    String.intercalate "\n" [
      "**INSTRUCTION - MAXIMUM STYLE:** ",
      "           - **Heavily caricature** the subjects. ",
      "           - Distort realistic proportions to fit the cartoon's \"bean-head\" and \"noodly limb\" anatomy. ",
      "           - It is acceptable to sacrifice some facial likeness to achieve the perfect \"Adult Swim\" cartoon look. ",
      "           - Make the background look like a wobbly alien dimension or a clean vector sci-fi room.",
      "           - The result should look like a screenshot from Season 4."]
  else
    String.intercalate "\n" [
      "**INSTRUCTION - BALANCED:**",
      "           - Preserve the distinct likeness, pose, and expression of the subjects.",
      "           - Apply the line-art and coloring style of the show, but keep the facial proportions recognizable.",
      "           - Simplify clothing details into the cartoon style."]

/-- The full prompt template of `generateRickAndMortyStyle`, with the two
interpolation holes filled from the selected strength. -/
def stylePrompt (strength : StyleStrength) : String :=
  String.intercalate "\n" [
    "",
    "      [STYLE TRANSFER TASK]",
    "      Target: Redraw the source image entirely in the art style of the animated series \"Rick and Morty\" (Justin Roiland style).",
    "      ",
    "      **CRITICAL VISUAL FEATURES (MUST FOLLOW):**",
    "      1.  **EYES:** Characters MUST have perfectly round white eyes with **uneven, scribbly black pupils** (looking like little asterisks or scribbles). This is the specific \"Rick and Morty\" signature.",
    "      2.  **OUTLINES:** Use thin, consistent black vector lines. No sketchy lines, just clean ink.",
    "      3.  **COLORING:** Use flat, solid colors. **ABSOLUTELY NO** gradients, soft shading, or realistic lighting. Use the show's pale/greyish skin tone palette unless the subject is dark-skinned.",
    "      4.  **MOUTHS:** Use the show's signature \"droopy\" lips or simple line mouths.",
    "      ",
    "      **INTENSITY LEVEL: " ++ intensityLabel strength ++ "**",
    "      ",
    "      " ++ instructionBlock strength,
    "",
    "      **Output:** Return ONLY the generated image.",
    "    "]

/-- The `temperature` generation setting:
`strength === 'strong' ? 0.75 : 0.65`. -/
def temperatureFor (strength : StyleStrength) : ℚ :=
  if strength = .strong then 0.75 else 0.65

/-! ## Generation-response extraction (`generateRickAndMortyStyle`,
`src/services/geminiService.ts`)

The SDK response is modelled structurally: each field that can be
`undefined` in the JavaScript object graph is an `Option`.  The extraction
code guards `response.candidates && response.candidates[0].content.parts`,
so an absent `candidates` list or absent `parts` skips to the thrown
"no image" error, while a present-but-empty `candidates` list (or a first
candidate without `content`) makes the property access itself throw a
TypeError.  `part.inlineData && part.inlineData.data` treats an empty
data string as absent (JavaScript falsiness). -/

/-- `inlineData` field of a response part. -/
structure InlineData where
  data : Option String
deriving DecidableEq, Repr

/-- A content part of the response: inline image bytes and/or text. -/
structure Part where
  inlineData : Option InlineData
  text : Option String
deriving DecidableEq, Repr

/-- `content` of a candidate: an optional list of parts. -/
structure Content where
  parts : Option (List Part)
deriving DecidableEq, Repr

/-- One response candidate. -/
structure Candidate where
  content : Option Content
deriving DecidableEq, Repr

/-- The response object returned by the remote generation call. -/
structure GenResponse where
  candidates : Option (List Candidate)
deriving DecidableEq, Repr

/-- Truthiness of `part.inlineData && part.inlineData.data`. -/
def partHasImageData (p : Part) : Bool :=
  match p.inlineData with
  | some d =>
    match d.data with
    | some s => !s.isEmpty
    | none => false
  | none => false

/-- The `for (const part of ...)` scan: data of the first part whose
`inlineData.data` is truthy. -/
def firstImagePart : List Part → Option String
  | [] => none
  | p :: ps =>
    match p.inlineData with
    | some d =>
      match d.data with
      | some s => if s.isEmpty then firstImagePart ps else some s
      | none => firstImagePart ps
    | none => firstImagePart ps

/-- How the extraction tail of `generateRickAndMortyStyle` terminates:
a data URL, the thrown `Error("No image generated ...")`, or a TypeError
from accessing a property of `undefined`. -/
inductive ExtractResult where
  | image (url : String)
  | noImageError
  | typeError
deriving DecidableEq, Repr

/-- Shallow embedding of the response-extraction tail of
`generateRickAndMortyStyle`: the guard, the part scan returning
`data:image/png;base64,` + bytes, and the fallthrough throw. -/
def extractImage (r : GenResponse) : ExtractResult :=
  match r.candidates with
  | none => .noImageError
  | some [] => .typeError
  | some (c :: _) =>
    match c.content with
    | none => .typeError
    | some content =>
      match content.parts with
      | none => .noImageError
      | some ps =>
        match firstImagePart ps with
        | some d => .image ("data:image/png;base64," ++ d)
        | none => .noImageError

/-! ## Error-message classification (`handleFileUpload` catch block,
`src/App.tsx`) -/

/-- `List.isPrefixOf` over characters, written out so the development does
not depend on library availability. -/
def charsPrefixOf : List Char → List Char → Bool
  | [], _ => true
  | _ :: _, [] => false
  | a :: as, b :: bs => a == b && charsPrefixOf as bs

/-- Whether `needle` occurs as a contiguous run inside `hay`. -/
def charsInfixOf (needle : List Char) : List Char → Bool
  | [] => charsPrefixOf needle []
  | b :: bs => charsPrefixOf needle (b :: bs) || charsInfixOf needle bs

/-- JavaScript `s.includes(pat)`: case-sensitive substring test. -/
def strIncludes (s pat : String) : Bool :=
  charsInfixOf pat.data s.data

/-- JavaScript `s.startsWith(pat)`. -/
def strStartsWith (s pat : String) : Bool :=
  charsPrefixOf pat.data s.data

/-- Fallback message when the failure has no (or an empty) description. -/
def genericFailureMsg : String := "Failed to generate image. Please try again."

/-- The connection-failed user message. -/
def connectionFailedMsg : String :=
  "Connection failed. The image might be too complex or large for the portal gun. Try a different photo."

/-- The format-rejected user message. -/
def formatRejectedMsg : String :=
  "The image format wasn't accepted by the Council of Ricks. Try a standard JPG or PNG."

/-- The validation message for non-image files. -/
def validationErrorMsg : String := "Please upload a valid image file (PNG, JPG, etc.)"

/-- Shallow embedding of the catch-block classification in
`handleFileUpload`: `err.message || fallback` (an empty string is falsy),
then the case-sensitive `includes` tests in priority order. -/
def classifyError (message : Option String) : String :=
  let errorMessage :=
    match message with
    | some m => if m.isEmpty then genericFailureMsg else m
    | none => genericFailureMsg
  if strIncludes errorMessage "Rpc failed" || strIncludes errorMessage "500"
      || strIncludes errorMessage "xhr error" then
    connectionFailedMsg
  else if strIncludes errorMessage "400" then
    formatRejectedMsg
  else
    errorMessage

/-! ## Application Controller (`src/App.tsx`)

React state (`appState`, `result`, `error`, `styleStrength`) plus the
`value` of the file-input element when it is mounted (`fileInputRef`).
The asynchronous pieces of `handleFileUpload` are explicit transition
functions: the synchronous prefix up to `reader.readAsDataURL`, the
`reader.onloadend` step that stores the original preview, and the two
continuations of the awaited `generateRickAndMortyStyle` call.  None of
the continuations re-checks `appState` before writing. -/

/-- The selected file, as the controller observes it: its MIME type. -/
structure File where
  type : String
deriving DecidableEq, Repr

/-- The controller's state. -/
structure AppModel where
  appState : AppState
  result : GenerationResult
  error : Option String
  styleStrength : StyleStrength
  fileInput : Option String
deriving DecidableEq, Repr

/-- Synchronous prefix of `handleFileUpload`: the empty-selection early
return, the MIME-type validation, and on success
`setAppState(PROCESSING); setError(null)` before the reader is started. -/
def handleFileUploadSync (s : AppModel) (file : Option File) : AppModel :=
  match file with
  | none => s
  | some f =>
    if !(strStartsWith f.type "image/") then
      { s with error := some validationErrorMsg }
    else
      { s with appState := .PROCESSING, error := none }

/-- The `reader.onloadend` step before the remote call:
`setResult({ original: inputImage, generated: null })`. -/
def onFileLoaded (s : AppModel) (inputImage : ProcessedImage) : AppModel :=
  { s with result := { original := some inputImage, generated := none } }

/-- Continuation after `generateRickAndMortyStyle` resolves: stores the
generated URL and moves to COMPLETE, unconditionally. -/
def onGenerationSuccess (s : AppModel) (inputImage : ProcessedImage) (url : String) : AppModel :=
  { s with
      result := { original := some inputImage, generated := some url },
      appState := .COMPLETE }

/-- Continuation after `generateRickAndMortyStyle` rejects: classifies the
message, stores it and moves to ERROR, unconditionally. -/
def onGenerationFailure (s : AppModel) (message : Option String) : AppModel :=
  { s with error := some (classifyError message), appState := .ERROR }

/-- `handleReset`: back to IDLE, clear both images and the error, and blank
the file input's value when the element is mounted. -/
def handleReset (s : AppModel) : AppModel :=
  { s with
      appState := .IDLE,
      result := { original := none, generated := none },
      error := none,
      fileInput := s.fileInput.map (fun _ => "") }

/-- The initial mounted state of the application. -/
def idleModel : AppModel :=
  { appState := .IDLE,
    result := { original := none, generated := none },
    error := none,
    styleStrength := .balanced,
    fileInput := some "" }

/-! ## Theorems -/

/-- C10: when the file-selection event carries no file, `handleFileUpload`
returns before touching any state: the application state, the result
record and the error message are all unchanged. -/
theorem C10_empty_selection_noop (s : AppModel) :
    handleFileUploadSync s none = s := rfl

/-- C9: reset is total and idempotent: from any state it yields the clean
IDLE state (no original, no generated, no error, file-input value blanked
whenever the element is mounted), and resetting again yields the same
state. -/
theorem C9_reset_idempotent (s : AppModel) :
    handleReset s =
      { appState := .IDLE,
        result := { original := none, generated := none },
        error := none,
        styleStrength := s.styleStrength,
        fileInput := s.fileInput.map (fun _ => "") } ∧
    handleReset (handleReset s) = handleReset s := by
  refine ⟨rfl, ?_⟩
  rcases s with ⟨a, r, e, st, fi⟩
  cases fi <;> rfl

/-- C8: selecting a file whose MIME type does not start with `image/`
while IDLE leaves the application state IDLE, sets the validation error
message, and modifies nothing else (result, style selection, file-input
value are untouched). -/
theorem C8_nonimage_keeps_idle (s : AppModel) (f : File)
    (hs : s.appState = .IDLE)
    (hf : strStartsWith f.type "image/" = false) :
    (handleFileUploadSync s (some f)).appState = AppState.IDLE ∧
    (handleFileUploadSync s (some f)).result = s.result ∧
    (handleFileUploadSync s (some f)).error = some validationErrorMsg ∧
    (handleFileUploadSync s (some f)).styleStrength = s.styleStrength ∧
    (handleFileUploadSync s (some f)).fileInput = s.fileInput := by
  simp [handleFileUploadSync, hf, hs]

/-- Witness for C8 at a concrete text file selected in the initial state. -/
theorem C8_witness :
    (handleFileUploadSync idleModel (some { type := "text/plain" })).appState = AppState.IDLE ∧
    (handleFileUploadSync idleModel (some { type := "text/plain" })).result = idleModel.result ∧
    (handleFileUploadSync idleModel (some { type := "text/plain" })).error = some validationErrorMsg ∧
    (handleFileUploadSync idleModel (some { type := "text/plain" })).styleStrength = idleModel.styleStrength ∧
    (handleFileUploadSync idleModel (some { type := "text/plain" })).fileInput = idleModel.fileInput :=
  C8_nonimage_keeps_idle idleModel { type := "text/plain" } rfl (by decide)

/-- C5: the prompt construction and the temperature are pure functions of
the selected strength: repeated invocations agree, `strong` uses
temperature 0.75, `balanced` uses 0.65. -/
theorem C5_prompt_builder_deterministic :
    (stylePrompt .strong = stylePrompt .strong ∧ temperatureFor .strong = 0.75) ∧
    (stylePrompt .balanced = stylePrompt .balanced ∧ temperatureFor .balanced = 0.65) :=
  ⟨⟨rfl, rfl⟩, ⟨rfl, rfl⟩⟩

/-- A concrete PNG file selection used to exercise the upload pipeline. -/
def demoFile : File := { type := "image/png" }

/-- The decoded payload of `demoFile` as the reader produces it. -/
def demoImage : ProcessedImage := { base64 := "QUJD", mimeType := "image/png" }

/-- The controller state after a valid selection (PROCESSING) and the
`onloadend` preview write, while the remote call is still in flight. -/
def staleRunMidFlight : AppModel :=
  onFileLoaded (handleFileUploadSync idleModel (some demoFile)) demoImage

/-- C1: the source has no stale-response guard.  In the run where a valid
image is selected (state PROCESSING), reset fires mid-flight (state back
to IDLE), and the in-flight generation then resolves successfully, the
unconditional continuation overwrites the reset: the state ends COMPLETE,
not IDLE, and the late result is applied rather than discarded. -/
theorem C1_stale_result_not_discarded :
    (handleFileUploadSync idleModel (some demoFile)).appState = AppState.PROCESSING ∧
    staleRunMidFlight.appState = AppState.PROCESSING ∧
    (handleReset staleRunMidFlight).appState = AppState.IDLE ∧
    (onGenerationSuccess (handleReset staleRunMidFlight) demoImage
        "data:image/png;base64,R0VO").appState = AppState.COMPLETE ∧
    (onGenerationSuccess (handleReset staleRunMidFlight) demoImage
        "data:image/png;base64,R0VO").result.generated = some "data:image/png;base64,R0VO" ∧
    AppState.COMPLETE ≠ AppState.IDLE := by
  refine ⟨?_, ?_, rfl, rfl, rfl, by decide⟩ <;> decide

/-- C2: whenever decoding succeeds and both dimensions are at most 1024,
the optimizer resolves with the input payload byte-for-byte and the input
MIME type (regardless of canvas availability). -/
theorem C2_small_images_unchanged (env : OptEnv) (base64 mimeType : String)
    (w h : Nat) (hdec : env.decode = .success w h)
    (hw : w ≤ 1024) (hh : h ≤ 1024) :
    optimizeImage env base64 mimeType =
      { data := .passthrough base64, mimeType := mimeType } := by
  rcases env with ⟨b, dec, ctx⟩
  simp only at hdec
  subst hdec
  cases b with
  | false => rfl
  | true =>
    simp [optimizeImage, MAX_DIMENSION, Nat.not_lt.mpr hw, Nat.not_lt.mpr hh]

/-- Witness for C2: an 800×600 decode passes the payload through. -/
theorem C2_witness :
    optimizeImage { browserAvailable := true, decode := .success 800 600, ctxAvailable := true }
        "QUJD" "image/png" =
      { data := .passthrough "QUJD", mimeType := "image/png" } :=
  C2_small_images_unchanged _ _ _ 800 600 rfl (by decide) (by decide)

/-- C4: the optimizer is a total function (every control path resolves,
none rejects), and on every failure path — no browser image machinery,
decode failure, or unavailable 2d context — it resolves with the original
payload and MIME type unchanged, so no optimizer failure can surface to
`generateRickAndMortyStyle`. -/
theorem C4_optimizer_absorbs_failures (env : OptEnv) (base64 mimeType : String) :
    (env.browserAvailable = false ∨ env.decode = .failure ∨ env.ctxAvailable = false →
      optimizeImage env base64 mimeType =
        { data := .passthrough base64, mimeType := mimeType }) ∧
    (optimizeImage env base64 mimeType =
        { data := .passthrough base64, mimeType := mimeType } ∨
      ∃ w2 h2, optimizeImage env base64 mimeType =
        { data := .jpegOf w2 h2 0.85, mimeType := "image/jpeg" }) := by
  rcases env with ⟨b, dec, ctx⟩
  constructor
  · rintro (hb | hdec | hctx)
    · simp only at hb
      subst hb
      rfl
    · simp only at hdec
      subst hdec
      cases b <;> rfl
    · simp only at hctx
      subst hctx
      cases b with
      | false => rfl
      | true =>
        cases dec with
        | failure => rfl
        | success w h =>
          by_cases hbig : MAX_DIMENSION < w ∨ MAX_DIMENSION < h
          · simp [optimizeImage, hbig]
          · simp [optimizeImage, hbig]
  · cases b with
    | false => exact Or.inl rfl
    | true =>
      cases dec with
      | failure => exact Or.inl rfl
      | success w h =>
        by_cases hbig : MAX_DIMENSION < w ∨ MAX_DIMENSION < h
        · cases ctx with
          | false => simp [optimizeImage, hbig]
          | true =>
            refine Or.inr ?_
            by_cases hwh : h < w
            · exact ⟨MAX_DIMENSION, jsRound (h * MAX_DIMENSION) w,
                by simp [optimizeImage, hbig, hwh]⟩
            · exact ⟨jsRound (w * MAX_DIMENSION) h, MAX_DIMENSION,
                by simp [optimizeImage, hbig, hwh]⟩
        · simp [optimizeImage, hbig]

/-- Witness for C4: a failed decode resolves with the input unchanged. -/
theorem C4_witness :
    optimizeImage { browserAvailable := true, decode := .failure, ctxAvailable := true }
        "QUJD" "image/png" =
      { data := .passthrough "QUJD", mimeType := "image/png" } :=
  (C4_optimizer_absorbs_failures _ "QUJD" "image/png").1 (Or.inr (Or.inl rfl))

/-- Scaling the side `a` of an image whose other side `b` is at least as
long never exceeds the target: `Math.round(a·1024/b) ≤ 1024`. -/
theorem jsRound_le_target (a b : Nat) (hb : 0 < b) (hab : a ≤ b) :
    jsRound (a * 1024) b ≤ 1024 := by
  unfold jsRound
  have h2b : 0 < 2 * b := by omega
  have : 2 * (a * 1024) + b < 1025 * (2 * b) := by omega
  have := (Nat.div_lt_iff_lt_mul h2b).mpr this
  omega

/-- `Math.round(n/d)` differs from the exact ratio by at most one half:
`|jsRound n d · d − n| ≤ d/2`, stated multiplied out over `Nat`. -/
theorem jsRound_half_bounds (n d : Nat) (hd : 0 < d) :
    2 * (jsRound n d * d) ≤ 2 * n + d ∧ 2 * n ≤ 2 * (jsRound n d * d) + d := by
  unfold jsRound
  have h2d : 0 < 2 * d := by omega
  have hdm := Nat.div_add_mod (2 * n + d) (2 * d)
  have hmod := Nat.mod_lt (2 * n + d) h2d
  have hcomm : 2 * d * ((2 * n + d) / (2 * d)) = 2 * ((2 * n + d) / (2 * d) * d) := by ring
  rw [hcomm] at hdm
  obtain ⟨p, hp⟩ : ∃ p, (2 * n + d) / (2 * d) * d = p := ⟨_, rfl⟩
  obtain ⟨r, hr⟩ : ∃ r, (2 * n + d) % (2 * d) = r := ⟨_, rfl⟩
  rw [hp, hr] at hdm
  rw [hr] at hmod
  rw [hp]
  omega

/-- C3: whenever decoding succeeds with a dimension above 1024 and a
canvas context is available, the optimizer re-encodes as `image/jpeg` at
quality 0.85 with dimensions whose longer side is exactly 1024 and whose
shorter side is the proportionally scaled value rounded to the nearest
integer pixel — hence within half a source pixel of the exact aspect
ratio (the `±1 px` tolerance). -/
theorem C3_large_images_resized (env : OptEnv) (base64 mimeType : String)
    (w h : Nat) (hb : env.browserAvailable = true)
    (hdec : env.decode = .success w h) (hctx : env.ctxAvailable = true)
    (hw : 0 < w) (hh : 0 < h) (hbig : 1024 < w ∨ 1024 < h) :
    ∃ w2 h2 : Nat,
      optimizeImage env base64 mimeType =
        { data := .jpegOf w2 h2 0.85, mimeType := "image/jpeg" } ∧
      max w2 h2 = 1024 ∧
      min w2 h2 = jsRound (min w h * 1024) (max w h) ∧
      2 * (min w2 h2 * max w h) ≤ 2 * (min w h * 1024) + max w h ∧
      2 * (min w h * 1024) ≤ 2 * (min w2 h2 * max w h) + max w h := by
  rcases env with ⟨b, dec, ctx⟩
  simp only at hb hdec hctx
  subst hb hdec hctx
  by_cases hwh : h < w
  · refine ⟨1024, jsRound (h * 1024) w, ?_, ?_, ?_, ?_, ?_⟩
    · simp [optimizeImage, MAX_DIMENSION, hbig, hwh]
    · have := jsRound_le_target h w hw (Nat.le_of_lt hwh)
      omega
    · have h1 := jsRound_le_target h w hw (Nat.le_of_lt hwh)
      have hmin : min w h = h := Nat.min_eq_right (Nat.le_of_lt hwh)
      have hmax : max w h = w := Nat.max_eq_left (Nat.le_of_lt hwh)
      rw [hmin, hmax]
      omega
    · have h1 := jsRound_le_target h w hw (Nat.le_of_lt hwh)
      have hbd := jsRound_half_bounds (h * 1024) w hw
      have hmin : min w h = h := Nat.min_eq_right (Nat.le_of_lt hwh)
      have hmax : max w h = w := Nat.max_eq_left (Nat.le_of_lt hwh)
      rw [hmin, hmax]
      have hm2 : min 1024 (jsRound (h * 1024) w) = jsRound (h * 1024) w := Nat.min_eq_right h1
      rw [hm2]
      omega
    · have h1 := jsRound_le_target h w hw (Nat.le_of_lt hwh)
      have hbd := jsRound_half_bounds (h * 1024) w hw
      have hmin : min w h = h := Nat.min_eq_right (Nat.le_of_lt hwh)
      have hmax : max w h = w := Nat.max_eq_left (Nat.le_of_lt hwh)
      rw [hmin, hmax]
      have hm2 : min 1024 (jsRound (h * 1024) w) = jsRound (h * 1024) w := Nat.min_eq_right h1
      rw [hm2]
      omega
  · have hle : w ≤ h := Nat.le_of_not_lt hwh
    refine ⟨jsRound (w * 1024) h, 1024, ?_, ?_, ?_, ?_, ?_⟩
    · simp [optimizeImage, MAX_DIMENSION, hbig, hwh]
    · have := jsRound_le_target w h hh hle
      omega
    · have h1 := jsRound_le_target w h hh hle
      have hmin : min w h = w := Nat.min_eq_left hle
      have hmax : max w h = h := Nat.max_eq_right hle
      rw [hmin, hmax]
      omega
    · have h1 := jsRound_le_target w h hh hle
      have hbd := jsRound_half_bounds (w * 1024) h hh
      have hmin : min w h = w := Nat.min_eq_left hle
      have hmax : max w h = h := Nat.max_eq_right hle
      rw [hmin, hmax]
      have hm2 : min (jsRound (w * 1024) h) 1024 = jsRound (w * 1024) h := Nat.min_eq_left h1
      rw [hm2]
      omega
    · have h1 := jsRound_le_target w h hh hle
      have hbd := jsRound_half_bounds (w * 1024) h hh
      have hmin : min w h = w := Nat.min_eq_left hle
      have hmax : max w h = h := Nat.max_eq_right hle
      rw [hmin, hmax]
      have hm2 : min (jsRound (w * 1024) h) 1024 = jsRound (w * 1024) h := Nat.min_eq_left h1
      rw [hm2]
      omega

/-- Witness for C3: a 2000×1000 decode is re-encoded as JPEG at quality
0.85 with longer side 1024 and rounded shorter side. -/
theorem C3_witness :
    ∃ w2 h2 : Nat,
      optimizeImage { browserAvailable := true, decode := .success 2000 1000, ctxAvailable := true }
          "QUJD" "image/png" =
        { data := .jpegOf w2 h2 0.85, mimeType := "image/jpeg" } ∧
      max w2 h2 = 1024 ∧
      min w2 h2 = jsRound (min 2000 1000 * 1024) (max 2000 1000) ∧
      2 * (min w2 h2 * max 2000 1000) ≤ 2 * (min 2000 1000 * 1024) + max 2000 1000 ∧
      2 * (min 2000 1000 * 1024) ≤ 2 * (min w2 h2 * max 2000 1000) + max 2000 1000 :=
  C3_large_images_resized _ "QUJD" "image/png" 2000 1000 rfl rfl rfl
    (by decide) (by decide) (Or.inl (by decide))

/-- C7: classification of a non-empty raw failure description is by
case-sensitive substring tests in priority order: any of "Rpc failed",
"500", "xhr error" gives the connection-failed message; otherwise "400"
gives the format-rejected message; otherwise the description maps to
itself; and with no description the generic fallback is used. -/
theorem C7_error_classification (m : String) (hm : m.isEmpty = false) :
    ((strIncludes m "Rpc failed" || strIncludes m "500" || strIncludes m "xhr error") = true →
      classifyError (some m) = connectionFailedMsg) ∧
    ((strIncludes m "Rpc failed" || strIncludes m "500" || strIncludes m "xhr error") = false →
      strIncludes m "400" = true → classifyError (some m) = formatRejectedMsg) ∧
    ((strIncludes m "Rpc failed" || strIncludes m "500" || strIncludes m "xhr error") = false →
      strIncludes m "400" = false → classifyError (some m) = m) ∧
    classifyError none = genericFailureMsg := by
  refine ⟨?_, ?_, ?_, by decide⟩
  · intro hc
    simp [classifyError, hm, hc]
  · intro hc h4
    simp only [Bool.or_eq_false_iff] at hc
    simp [classifyError, hm, hc.1.1, hc.1.2, hc.2, h4]
  · intro hc h4
    simp only [Bool.or_eq_false_iff] at hc
    simp [classifyError, hm, hc.1.1, hc.1.2, hc.2, h4]

/-- Witness for C7: a description containing "500" is classified as a
connection failure. -/
theorem C7_witness :
    classifyError (some "Rpc failed: error code 500") = connectionFailedMsg :=
  (C7_error_classification "Rpc failed: error code 500" (by decide)).1 (by decide)

/-- The scan comes up empty exactly when no scanned part carries truthy
inline image data. -/
theorem firstImagePart_eq_none_iff (ps : List Part) :
    firstImagePart ps = none ↔ ps.find? partHasImageData = none := by
  induction ps with
  | nil => simp [firstImagePart]
  | cons q ps ih =>
    by_cases hq : partHasImageData q = true
    · rw [List.find?_cons_of_pos ps hq]
      cases hil : q.inlineData with
      | none => simp [partHasImageData, hil] at hq
      | some dd =>
        cases hd : dd.data with
        | none => simp [partHasImageData, hil, hd] at hq
        | some s =>
          simp only [partHasImageData, hil, hd, Bool.not_eq_true'] at hq
          simp [firstImagePart, hil, hd, hq]
    · rw [List.find?_cons_of_neg ps (by simp [hq])]
      rw [← ih]
      cases hil : q.inlineData with
      | none => simp [firstImagePart, hil]
      | some dd =>
        cases hd : dd.data with
        | none => simp [firstImagePart, hil, hd]
        | some s =>
          have hs : s.isEmpty = true := by
            simpa [partHasImageData, hil, hd] using hq
          simp [firstImagePart, hil, hd, hs]

/-- When the scan's first hit is `p`, the returned payload is exactly the
inline data of `p` (which is present and non-empty). -/
theorem firstImagePart_of_find (ps : List Part) (p : Part)
    (hp : ps.find? partHasImageData = some p) :
    ∃ dd d, p.inlineData = some dd ∧ dd.data = some d ∧ d.isEmpty = false ∧
      firstImagePart ps = some d := by
  induction ps with
  | nil => simp at hp
  | cons q ps ih =>
    by_cases hq : partHasImageData q = true
    · rw [List.find?_cons_of_pos ps hq] at hp
      injection hp with hp
      subst hp
      cases hil : q.inlineData with
      | none => simp [partHasImageData, hil] at hq
      | some dd =>
        cases hd : dd.data with
        | none => simp [partHasImageData, hil, hd] at hq
        | some s =>
          simp only [partHasImageData, hil, hd, Bool.not_eq_true'] at hq
          exact ⟨dd, s, rfl, hd, hq, by simp [firstImagePart, hil, hd, hq]⟩
    · rw [List.find?_cons_of_neg ps (by simp [hq])] at hp
      obtain ⟨dd, d, h1, h2, h3, h4⟩ := ih hp
      refine ⟨dd, d, h1, h2, h3, ?_⟩
      cases hil : q.inlineData with
      | none => simp [firstImagePart, hil, h4]
      | some dd2 =>
        cases hd : dd2.data with
        | none => simp [firstImagePart, hil, hd, h4]
        | some s =>
          have hs : s.isEmpty = true := by
            simpa [partHasImageData, hil, hd] using hq
          simp [firstImagePart, hil, hd, hs, h4]

/-- Whether some scanned content part of the response carries (truthy)
inline image data. -/
def responseHasImagePart (r : GenResponse) : Bool :=
  match r.candidates with
  | none => false
  | some cs =>
    cs.any fun c =>
      match c.content with
      | none => false
      | some content =>
        match content.parts with
        | none => false
        | some ps => ps.any partHasImageData

/-- C6 counterexample: for the response whose `candidates` field is a
present but empty list, no part carries inline image data, yet extraction
does not produce the "no image" error — the unguarded `candidates[0]`
access fails with a TypeError instead. -/
theorem C6_counterexample :
    ¬ (extractImage { candidates := some [] } = .noImageError ↔
        responseHasImagePart { candidates := some [] } = false) := by
  decide

/-- C6 (amended): for a response whose `candidates` list, when present, is
non-empty with its first candidate bearing content, extraction scans that
candidate's parts in order: if the scan hits a part with inline image
data, it returns that part's data wrapped as a PNG data URL, and it raises
the "no image produced" error exactly when no scanned part carries inline
image data (also when `candidates` or `parts` is absent).  A response
with a present-but-empty `candidates` list, or whose first candidate has
no content, instead fails with a TypeError from the unguarded
`candidates[0].content.parts` access. -/
theorem C6_response_extraction (r : GenResponse) :
    (r.candidates = none → extractImage r = .noImageError) ∧
    (r.candidates = some [] → extractImage r = .typeError) ∧
    (∀ c cs, r.candidates = some (c :: cs) → c.content = none →
      extractImage r = .typeError) ∧
    (∀ c cs content, r.candidates = some (c :: cs) → c.content = some content →
      content.parts = none → extractImage r = .noImageError) ∧
    (∀ c cs content ps, r.candidates = some (c :: cs) → c.content = some content →
      content.parts = some ps →
      ((∀ p, ps.find? partHasImageData = some p →
        ∃ dd d, p.inlineData = some dd ∧ dd.data = some d ∧ d.isEmpty = false ∧
          extractImage r = .image ("data:image/png;base64," ++ d)) ∧
      (extractImage r = .noImageError ↔ ps.find? partHasImageData = none))) := by
  obtain ⟨cands⟩ := r
  refine ⟨?_, ?_, ?_, ?_, ?_⟩
  · intro hc
    simp only at hc
    subst hc
    rfl
  · intro hc
    simp only at hc
    subst hc
    rfl
  · intro c cs hc hcontent
    simp only at hc
    subst hc
    simp [extractImage, hcontent]
  · intro c cs content hc hcontent hparts
    simp only at hc
    subst hc
    simp [extractImage, hcontent, hparts]
  · intro c cs content ps hc hcontent hparts
    simp only at hc
    subst hc
    constructor
    · intro p hfind
      obtain ⟨dd, d, h1, h2, h3, h4⟩ := firstImagePart_of_find ps p hfind
      exact ⟨dd, d, h1, h2, h3, by simp [extractImage, hcontent, hparts, h4]⟩
    · rw [← firstImagePart_eq_none_iff]
      cases hfp : firstImagePart ps with
      | none => simp [extractImage, hcontent, hparts, hfp]
      | some d => simp [extractImage, hcontent, hparts, hfp]

/-- A concrete well-formed response: a text part followed by an
inline-image part. -/
def demoResponse : GenResponse :=
  { candidates := some [
      { content := some { parts := some [
          { inlineData := none, text := some "sure, here it is" },
          { inlineData := some { data := some "R0VO" }, text := none } ] } } ] }

/-- Witness for C6: extraction on `demoResponse` returns the inline data
of its second part as a PNG data URL. -/
theorem C6_witness :
    extractImage demoResponse = ExtractResult.image "data:image/png;base64,R0VO" := by
  obtain ⟨dd, d, h1, h2, h3, h4⟩ :=
    (((C6_response_extraction demoResponse).2.2.2.2)
        { content := some { parts := some [
            { inlineData := none, text := some "sure, here it is" },
            { inlineData := some { data := some "R0VO" }, text := none } ] } }
        []
        { parts := some [
            { inlineData := none, text := some "sure, here it is" },
            { inlineData := some { data := some "R0VO" }, text := none } ] }
        [ { inlineData := none, text := some "sure, here it is" },
          { inlineData := some { data := some "R0VO" }, text := none } ]
        rfl rfl rfl).1
      { inlineData := some { data := some "R0VO" }, text := none }
      (by decide)
  have e1 : (some { data := some "R0VO" } : Option InlineData) = some dd := h1
  injection e1 with e1
  subst e1
  have e2 : (some "R0VO" : Option String) = some d := h2
  injection e2 with e2
  subst e2
  exact h4

end RickMorty
